import Mathlib

/-!
Deployment script `scripts/deploy.js`

A shallow embedding of the deployment script and the properties of its runs.

The script is an `async` function `main` followed by a top-level
`main().then(..).catch(..)` chain.  It talks to four collaborators supplied by
the hardhat/ethers SDK (`ethers.getContractFactory`, `factory.deploy`,
`contract.waitForDeployment`, `contract.getAddress`) and to the process
(`console.log`, `console.error`, `process.exit`).

* A collaborator call is a function that either returns a value (`Except.ok`)
  or raises an error (`Except.error`); a rejected promise and a synchronous
  `throw` are the same thing to an `await` inside an `async` function.
* Every observable action (collaborator call with its outcome, write to
  standard output, write to standard error, process exit) is appended to one
  event trace, in execution order.  Standard output, standard error and the
  exit code are projections of that trace.
* One entry of standard output is one `console.log` write.
* `getAddress` returns a string (its ethers signature is `Promise<string>`),
  so the template literal of the address line is plain concatenation.
-/

namespace Deploy

/-- The collaborators of the script: the hardhat `ethers` object, the contract
factory it resolves and the contract object that `deploy` returns.  `Err` is
the type of thrown values, `Factory` the type of contract factories and
`Handle` the type of submitted deployments. -/
structure Collaborators (Err Factory Handle : Type) where
  /-- Models `ethers.getContractFactory(name)`. -/
  getContractFactory : String → Except Err Factory
  /-- Models `factory.deploy(...args)`. -/
  deploy : Factory → List String → Except Err Handle
  /-- Models `contract.waitForDeployment()`; the script discards the value. -/
  waitForDeployment : Handle → Except Err Unit
  /-- Models `contract.getAddress()`. -/
  getAddress : Handle → Except Err String

deriving instance DecidableEq for Except

/-- One observable action of a run. -/
inductive Event (Err Factory Handle : Type) where
  /-- A `console.log(line)` write to standard output. -/
  | log (line : String)
  /-- A `console.error(e)` write to standard error. -/
  | error (e : Err)
  /-- A `process.exit(code)` call. -/
  | exit (code : Nat)
  /-- A call of `ethers.getContractFactory(name)` and its outcome. -/
  | getContractFactory (name : String) (r : Except Err Factory)
  /-- A call of `f.deploy(...args)` and its outcome. -/
  | deploy (f : Factory) (args : List String) (r : Except Err Handle)
  /-- A call of `h.waitForDeployment()` and its outcome. -/
  | waitForDeployment (h : Handle) (r : Except Err Unit)
  /-- A call of `h.getAddress()` and its outcome. -/
  | getAddress (h : Handle) (r : Except Err String)
  deriving DecidableEq

/-- The four pipeline steps, without their data. -/
inductive StepKind where
  | getContractFactory
  | deploy
  | waitForDeployment
  | getAddress
  deriving DecidableEq, Repr

variable {Err Factory Handle : Type}

/-- The event trace of a run so far, in execution order. -/
abbrev Trace (Err Factory Handle : Type) := List (Event Err Factory Handle)

/-- The body of an `async` function: it appends to the trace and either
returns a value or raises. -/
abbrev Async (Err Factory Handle : Type) (α : Type) :=
  ExceptT Err (StateM (Trace Err Factory Handle)) α

/-- Append one event to the trace. -/
def emit (ev : Event Err Factory Handle) : Async Err Factory Handle Unit :=
  modify fun t => t ++ [ev]

/-- Models `console.log(line)`. -/
def consoleLog (line : String) : Async Err Factory Handle Unit :=
  emit (Event.log line)

/-- Models `await c(...)`: record the call with its outcome, then continue with
the value or raise the error, unchanged. -/
def await {α : Type} (record : Except Err α → Event Err Factory Handle) (r : Except Err α) :
    Async Err Factory Handle α := do
  emit (record r)
  match r with
  | .ok v => pure v
  | .error e => throw e

/-- The intent line. -/
def intentLine : String := "Deploying LendingPlatform contract..."

/-- The address line, the template literal of the script. -/
def addressLine (lendingPlatformAddress : String) : String :=
  "LendingPlatform deployed to: " ++ lendingPlatformAddress

/-- The completion line. -/
def completionLine : String := "Deployment completed successfully!"

/-- The `async function main()` of the script. -/
def main (ethers : Collaborators Err Factory Handle) : Async Err Factory Handle Unit := do
  consoleLog intentLine
  -- Get the contract factory
  let LendingPlatform ←
    await (Event.getContractFactory "LendingPlatform")
      (ethers.getContractFactory "LendingPlatform")
  -- Deploy the contract
  let lendingPlatform ←
    await (Event.deploy LendingPlatform []) (ethers.deploy LendingPlatform [])
  -- Wait for deployment to finish
  await (Event.waitForDeployment lendingPlatform) (ethers.waitForDeployment lendingPlatform)
  -- Get the contract address
  let lendingPlatformAddress ←
    await (Event.getAddress lendingPlatform) (ethers.getAddress lendingPlatform)
  consoleLog (addressLine lendingPlatformAddress)
  consoleLog completionLine

/-- Run an `async` body from a given trace: its outcome and the trace after it. -/
def exec {α : Type} (m : Async Err Factory Handle α) (t : Trace Err Factory Handle) :
    Except Err α × Trace Err Factory Handle :=
  m.run.run t

/-- The top level of the script:
`main().then(() => process.exit(0)).catch((error) => { console.error(error); process.exit(1); })`.
The result is the complete event trace of the run. -/
def run (ethers : Collaborators Err Factory Handle) : Trace Err Factory Handle :=
  match exec (main ethers) [] with
  | (.ok _, t) => t ++ [Event.exit 0]
  | (.error error, t) => t ++ [Event.error error, Event.exit 1]

/-- The lines written to standard output, in order. -/
def stdout (t : Trace Err Factory Handle) : List String :=
  t.filterMap fun ev => match ev with
    | .log line => some line
    | _ => none

/-- The values written to standard error, in order. -/
def stderr (t : Trace Err Factory Handle) : List Err :=
  t.filterMap fun ev => match ev with
    | .error e => some e
    | _ => none

/-- The exit codes passed to `process.exit`, in order. -/
def exitCodes (t : Trace Err Factory Handle) : List Nat :=
  t.filterMap fun ev => match ev with
    | .exit code => some code
    | _ => none

/-- The pipeline step an event is a call of, if it is a collaborator call. -/
def Event.kind : Event Err Factory Handle → Option StepKind
  | .getContractFactory _ _ => some .getContractFactory
  | .deploy _ _ _ => some .deploy
  | .waitForDeployment _ _ => some .waitForDeployment
  | .getAddress _ _ => some .getAddress
  | _ => none

/-- The collaborator calls of a trace, with arguments and outcomes, in order. -/
def calls (t : Trace Err Factory Handle) : Trace Err Factory Handle :=
  t.filter fun ev => ev.kind.isSome

/-- The addresses that `getAddress` calls returned during the run. -/
def addresses (t : Trace Err Factory Handle) : List String :=
  t.filterMap fun ev => match ev with
    | .getAddress _ (.ok a) => some a
    | _ => none

/-- All four steps return without error, the last one with address `a`. -/
def AllReturn (ethers : Collaborators Err Factory Handle) (a : String) : Prop :=
  ∃ f h, ethers.getContractFactory "LendingPlatform" = .ok f ∧
    ethers.deploy f [] = .ok h ∧
    ethers.waitForDeployment h = .ok () ∧
    ethers.getAddress h = .ok a

/-- The first step that raises an error raises `e`. -/
def Raises (ethers : Collaborators Err Factory Handle) (e : Err) : Prop :=
  ethers.getContractFactory "LendingPlatform" = .error e ∨
  (∃ f, ethers.getContractFactory "LendingPlatform" = .ok f ∧
    (ethers.deploy f [] = .error e ∨
      ∃ h, ethers.deploy f [] = .ok h ∧
        (ethers.waitForDeployment h = .error e ∨
          (ethers.waitForDeployment h = .ok () ∧ ethers.getAddress h = .error e))))

/-- The address accessor keeps its contract: whatever `getAddress` returns is a
contract address, a non-empty string.  The accessor is part of the ethers SDK,
a parameter of the script, and the script passes its result on unchecked. -/
def ReturnsAddress (ethers : Collaborators Err Factory Handle) : Prop :=
  ∀ h a, ethers.getAddress h = .ok a → a ≠ ""

/-- The error a collaborator call raised, if the event is a call that raised. -/
def Event.raised : Event Err Factory Handle → Option Err
  | .getContractFactory _ (.error e) => some e
  | .deploy _ _ (.error e) => some e
  | .waitForDeployment _ (.error e) => some e
  | .getAddress _ (.error e) => some e
  | _ => none

/-- Whether a line of standard output is an address line: it starts with the
fixed text of the template literal. -/
def isAddressLine (line : String) : Bool :=
  "LendingPlatform deployed to: ".data.isPrefixOf line.data

/-! ## Concrete collaborators

Errors are strings, a factory is the artifact name it was resolved from and a
deployment handle is a transaction number. -/

/-- A local node on which every step succeeds. -/
def localNode : Collaborators String String Nat where
  getContractFactory := fun name => .ok name
  deploy := fun _ _ => .ok 1
  waitForDeployment := fun _ => .ok ()
  getAddress := fun _ => .ok "0x5FbDB2315678afecb367f032d93F642f64180aa3"

/-- A project in which the artifact was never compiled. -/
def missingArtifact : Collaborators String String Nat where
  getContractFactory := fun _ => .error "HH700: Artifact not found"
  deploy := fun _ _ => .ok 1
  waitForDeployment := fun _ => .ok ()
  getAddress := fun _ => .ok "0x5FbDB2315678afecb367f032d93F642f64180aa3"

/-- An account that cannot pay for the deployment transaction. -/
def unfundedAccount : Collaborators String String Nat where
  getContractFactory := fun name => .ok name
  deploy := fun _ _ => .error "insufficient funds"
  waitForDeployment := fun _ => .ok ()
  getAddress := fun _ => .ok "0x5FbDB2315678afecb367f032d93F642f64180aa3"

/-- A network on which the transaction is never mined. -/
def droppedTransaction : Collaborators String String Nat where
  getContractFactory := fun name => .ok name
  deploy := fun _ _ => .ok 1
  waitForDeployment := fun _ => .error "timeout"
  getAddress := fun _ => .ok "0x5FbDB2315678afecb367f032d93F642f64180aa3"

/-- A contract object whose address accessor raises. -/
def brokenAccessor : Collaborators String String Nat where
  getContractFactory := fun name => .ok name
  deploy := fun _ _ => .ok 1
  waitForDeployment := fun _ => .ok ()
  getAddress := fun _ => .error "unsupported operation"

/-! ## Executing the `async` body step by step -/

theorem exec_consoleLog_bind {α : Type} (line : String)
    (k : Unit → Async Err Factory Handle α) (t : Trace Err Factory Handle) :
    exec (consoleLog line >>= k) t = exec (k ()) (t ++ [Event.log line]) := rfl

theorem exec_consoleLog (line : String) (t : Trace Err Factory Handle) :
    exec (consoleLog line : Async Err Factory Handle Unit) t
      = (Except.ok (), t ++ [Event.log line]) := rfl

theorem exec_await_ok_bind {α β : Type} (record : Except Err α → Event Err Factory Handle)
    (v : α) (k : α → Async Err Factory Handle β) (t : Trace Err Factory Handle) :
    exec (await record (Except.ok v) >>= k) t = exec (k v) (t ++ [record (Except.ok v)]) := rfl

theorem exec_await_error_bind {α β : Type} (record : Except Err α → Event Err Factory Handle)
    (e : Err) (k : α → Async Err Factory Handle β) (t : Trace Err Factory Handle) :
    exec (await record (Except.error e) >>= k) t
      = (Except.error e, t ++ [record (Except.error e)]) := rfl

/-! ## The five shapes of a run -/

theorem run_getContractFactory_error (ethers : Collaborators Err Factory Handle) (e : Err)
    (h1 : ethers.getContractFactory "LendingPlatform" = .error e) :
    run ethers = [.log intentLine, .getContractFactory "LendingPlatform" (.error e),
      .error e, .exit 1] := by
  simp only [run, main, exec_consoleLog_bind, h1, exec_await_error_bind]
  rfl

theorem run_deploy_error (ethers : Collaborators Err Factory Handle) (f : Factory) (e : Err)
    (h1 : ethers.getContractFactory "LendingPlatform" = .ok f)
    (h2 : ethers.deploy f [] = .error e) :
    run ethers = [.log intentLine, .getContractFactory "LendingPlatform" (.ok f),
      .deploy f [] (.error e), .error e, .exit 1] := by
  simp only [run, main, exec_consoleLog_bind, h1, h2, exec_await_ok_bind, exec_await_error_bind]
  rfl

theorem run_waitForDeployment_error (ethers : Collaborators Err Factory Handle)
    (f : Factory) (h : Handle) (e : Err)
    (h1 : ethers.getContractFactory "LendingPlatform" = .ok f)
    (h2 : ethers.deploy f [] = .ok h)
    (h3 : ethers.waitForDeployment h = .error e) :
    run ethers = [.log intentLine, .getContractFactory "LendingPlatform" (.ok f),
      .deploy f [] (.ok h), .waitForDeployment h (.error e), .error e, .exit 1] := by
  simp only [run, main, exec_consoleLog_bind, h1, h2, h3, exec_await_ok_bind,
    exec_await_error_bind]
  rfl

theorem run_getAddress_error (ethers : Collaborators Err Factory Handle)
    (f : Factory) (h : Handle) (e : Err)
    (h1 : ethers.getContractFactory "LendingPlatform" = .ok f)
    (h2 : ethers.deploy f [] = .ok h)
    (h3 : ethers.waitForDeployment h = .ok ())
    (h4 : ethers.getAddress h = .error e) :
    run ethers = [.log intentLine, .getContractFactory "LendingPlatform" (.ok f),
      .deploy f [] (.ok h), .waitForDeployment h (.ok ()), .getAddress h (.error e),
      .error e, .exit 1] := by
  simp only [run, main, exec_consoleLog_bind, h1, h2, h3, h4, exec_await_ok_bind,
    exec_await_error_bind]
  rfl

theorem run_success (ethers : Collaborators Err Factory Handle)
    (f : Factory) (h : Handle) (a : String)
    (h1 : ethers.getContractFactory "LendingPlatform" = .ok f)
    (h2 : ethers.deploy f [] = .ok h)
    (h3 : ethers.waitForDeployment h = .ok ())
    (h4 : ethers.getAddress h = .ok a) :
    run ethers = [.log intentLine, .getContractFactory "LendingPlatform" (.ok f),
      .deploy f [] (.ok h), .waitForDeployment h (.ok ()), .getAddress h (.ok a),
      .log (addressLine a), .log completionLine, .exit 0] := by
  simp only [run, main, exec_consoleLog_bind, h1, h2, h3, h4, exec_await_ok_bind,
    exec_consoleLog]
  rfl

/-- Every run has one of the five shapes, decided by the collaborators. -/
theorem run_cases (ethers : Collaborators Err Factory Handle) :
    (∃ e, ethers.getContractFactory "LendingPlatform" = .error e ∧
      run ethers = [.log intentLine, .getContractFactory "LendingPlatform" (.error e),
        .error e, .exit 1]) ∨
    (∃ f e, ethers.getContractFactory "LendingPlatform" = .ok f ∧
      ethers.deploy f [] = .error e ∧
      run ethers = [.log intentLine, .getContractFactory "LendingPlatform" (.ok f),
        .deploy f [] (.error e), .error e, .exit 1]) ∨
    (∃ f h e, ethers.getContractFactory "LendingPlatform" = .ok f ∧
      ethers.deploy f [] = .ok h ∧ ethers.waitForDeployment h = .error e ∧
      run ethers = [.log intentLine, .getContractFactory "LendingPlatform" (.ok f),
        .deploy f [] (.ok h), .waitForDeployment h (.error e), .error e, .exit 1]) ∨
    (∃ f h e, ethers.getContractFactory "LendingPlatform" = .ok f ∧
      ethers.deploy f [] = .ok h ∧ ethers.waitForDeployment h = .ok () ∧
      ethers.getAddress h = .error e ∧
      run ethers = [.log intentLine, .getContractFactory "LendingPlatform" (.ok f),
        .deploy f [] (.ok h), .waitForDeployment h (.ok ()), .getAddress h (.error e),
        .error e, .exit 1]) ∨
    (∃ f h a, ethers.getContractFactory "LendingPlatform" = .ok f ∧
      ethers.deploy f [] = .ok h ∧ ethers.waitForDeployment h = .ok () ∧
      ethers.getAddress h = .ok a ∧
      run ethers = [.log intentLine, .getContractFactory "LendingPlatform" (.ok f),
        .deploy f [] (.ok h), .waitForDeployment h (.ok ()), .getAddress h (.ok a),
        .log (addressLine a), .log completionLine, .exit 0]) := by
  cases h1 : ethers.getContractFactory "LendingPlatform" with
  | error e => exact Or.inl ⟨e, rfl, run_getContractFactory_error ethers e h1⟩
  | ok f =>
    cases h2 : ethers.deploy f [] with
    | error e => exact Or.inr (Or.inl ⟨f, e, rfl, h2, run_deploy_error ethers f e h1 h2⟩)
    | ok h =>
      cases h3 : ethers.waitForDeployment h with
      | error e =>
        exact Or.inr (Or.inr (Or.inl
          ⟨f, h, e, rfl, h2, h3, run_waitForDeployment_error ethers f h e h1 h2 h3⟩))
      | ok u =>
        cases h4 : ethers.getAddress h with
        | error e =>
          exact Or.inr (Or.inr (Or.inr (Or.inl
            ⟨f, h, e, rfl, h2, h3, h4, run_getAddress_error ethers f h e h1 h2 h3 h4⟩)))
        | ok a =>
          exact Or.inr (Or.inr (Or.inr (Or.inr
            ⟨f, h, a, rfl, h2, h3, h4, run_success ethers f h a h1 h2 h3 h4⟩)))

/-! ## Success and failure of the pipeline -/

/-- A pipeline in which a step raises does not have all four steps return. -/
theorem not_allReturn_of_raises (ethers : Collaborators Err Factory Handle) (e : Err)
    (a : String) (hr : Raises ethers e) : ¬ AllReturn ethers a := by
  rintro ⟨f, h, h1, h2, h3, h4⟩
  rcases hr with g1 | ⟨f', g1, g2 | ⟨h', g2, g3 | ⟨g3, g4⟩⟩⟩
  · rw [h1] at g1; cases g1
  · rw [h1] at g1; cases g1; rw [h2] at g2; cases g2
  · rw [h1] at g1; cases g1; rw [h2] at g2; cases g2; rw [h3] at g3; cases g3
  · rw [h1] at g1; cases g1; rw [h2] at g2; cases g2; rw [h4] at g4; cases g4

/-- Either all four steps return or some step raises. -/
theorem allReturn_or_raises (ethers : Collaborators Err Factory Handle) :
    (∃ a, AllReturn ethers a) ∨ (∃ e, Raises ethers e) := by
  rcases run_cases ethers with ⟨e, h1, _⟩ | ⟨f, e, h1, h2, _⟩ | ⟨f, h, e, h1, h2, h3, _⟩ |
    ⟨f, h, e, h1, h2, h3, h4, _⟩ | ⟨f, h, a, h1, h2, h3, h4, _⟩
  · exact Or.inr ⟨e, Or.inl h1⟩
  · exact Or.inr ⟨e, Or.inr ⟨f, h1, Or.inl h2⟩⟩
  · exact Or.inr ⟨e, Or.inr ⟨f, h1, Or.inr ⟨h, h2, Or.inl h3⟩⟩⟩
  · exact Or.inr ⟨e, Or.inr ⟨f, h1, Or.inr ⟨h, h2, Or.inr ⟨h3, h4⟩⟩⟩⟩
  · exact Or.inl ⟨a, f, h, h1, h2, h3, h4⟩

/-- The trace of a run in which all four steps return. -/
theorem run_of_allReturn (ethers : Collaborators Err Factory Handle) (a : String)
    (hs : AllReturn ethers a) :
    ∃ f h, run ethers = [.log intentLine, .getContractFactory "LendingPlatform" (.ok f),
      .deploy f [] (.ok h), .waitForDeployment h (.ok ()), .getAddress h (.ok a),
      .log (addressLine a), .log completionLine, .exit 0] := by
  obtain ⟨f, h, h1, h2, h3, h4⟩ := hs
  exact ⟨f, h, run_success ethers f h a h1 h2 h3 h4⟩

/-- The trace of a run in which some step raises: the intent line, the calls up
to and including the one that raised, the error and the exit. -/
theorem run_of_raises (ethers : Collaborators Err Factory Handle) (e : Err)
    (hr : Raises ethers e) :
    run ethers = [.log intentLine, .getContractFactory "LendingPlatform" (.error e),
        .error e, .exit 1] ∨
    (∃ f, run ethers = [.log intentLine, .getContractFactory "LendingPlatform" (.ok f),
        .deploy f [] (.error e), .error e, .exit 1]) ∨
    (∃ f h, run ethers = [.log intentLine, .getContractFactory "LendingPlatform" (.ok f),
        .deploy f [] (.ok h), .waitForDeployment h (.error e), .error e, .exit 1]) ∨
    (∃ f h, run ethers = [.log intentLine, .getContractFactory "LendingPlatform" (.ok f),
        .deploy f [] (.ok h), .waitForDeployment h (.ok ()), .getAddress h (.error e),
        .error e, .exit 1]) := by
  rcases hr with g1 | ⟨f, g1, g2 | ⟨h, g2, g3 | ⟨g3, g4⟩⟩⟩
  · exact Or.inl (run_getContractFactory_error ethers e g1)
  · exact Or.inr (Or.inl ⟨f, run_deploy_error ethers f e g1 g2⟩)
  · exact Or.inr (Or.inr (Or.inl ⟨f, h, run_waitForDeployment_error ethers f h e g1 g2 g3⟩))
  · exact Or.inr (Or.inr (Or.inr ⟨f, h, run_getAddress_error ethers f h e g1 g2 g3 g4⟩))

theorem exitCodes_of_allReturn (ethers : Collaborators Err Factory Handle) (a : String)
    (hs : AllReturn ethers a) : exitCodes (run ethers) = [0] := by
  obtain ⟨f, h, hrun⟩ := run_of_allReturn ethers a hs
  rw [hrun]; rfl

theorem exitCodes_of_raises (ethers : Collaborators Err Factory Handle) (e : Err)
    (hr : Raises ethers e) : exitCodes (run ethers) = [1] := by
  rcases run_of_raises ethers e hr with hrun | ⟨f, hrun⟩ | ⟨f, h, hrun⟩ | ⟨f, h, hrun⟩ <;>
    (rw [hrun]; rfl)

/-! ## Address lines -/

theorem isAddressLine_iff (line : String) :
    isAddressLine line = true ↔ ∃ a, line = addressLine a := by
  unfold isAddressLine addressLine
  rw [List.isPrefixOf_iff_prefix]
  constructor
  · rintro ⟨t, ht⟩
    refine ⟨⟨t⟩, ?_⟩
    apply String.ext
    rw [String.data_append, ← ht]
  · rintro ⟨a, rfl⟩
    rw [String.data_append]
    exact List.prefix_append _ _

theorem isAddressLine_addressLine (a : String) : isAddressLine (addressLine a) = true :=
  (isAddressLine_iff _).2 ⟨a, rfl⟩

theorem isAddressLine_intentLine : isAddressLine intentLine = false := by decide

theorem isAddressLine_completionLine : isAddressLine completionLine = false := by decide

/-! ## Exit codes -/

/-- C1: for every behaviour of the four collaborators, the run calls
`process.exit` exactly once; the code is 0 if and only if all four steps return
without error, it is 1 if and only if they do not, and no other code occurs. -/
theorem exit_code_zero_iff_all_steps_return (ethers : Collaborators Err Factory Handle) :
    (exitCodes (run ethers) = [0] ↔ ∃ a, AllReturn ethers a) ∧
    (exitCodes (run ethers) = [1] ↔ ¬ ∃ a, AllReturn ethers a) ∧
    (exitCodes (run ethers) = [0] ∨ exitCodes (run ethers) = [1]) := by
  rcases allReturn_or_raises ethers with ⟨a, hs⟩ | ⟨e, hr⟩
  · have h0 := exitCodes_of_allReturn ethers a hs
    refine ⟨⟨fun _ => ⟨a, hs⟩, fun _ => h0⟩, ⟨fun h1 => ?_, fun hn => absurd ⟨a, hs⟩ hn⟩,
      Or.inl h0⟩
    rw [h0] at h1
    cases h1
  · have h1 := exitCodes_of_raises ethers e hr
    have hn : ¬ ∃ a, AllReturn ethers a := fun ⟨a, hs⟩ => not_allReturn_of_raises ethers e a hr hs
    refine ⟨⟨fun h0 => ?_, fun hs => absurd hs hn⟩, ⟨fun _ => hn, fun _ => h1⟩, Or.inr h1⟩
    rw [h1] at h0
    cases h0

/-! ## Failure stops the pipeline -/

/-- C2: when artifact resolution (`ethers.getContractFactory`) raises, the run
contains no call of `deploy`, `waitForDeployment` or `getAddress`, its only
collaborator call is the failed resolution, and the exit code is 1. -/
theorem resolution_failure_stops_pipeline (ethers : Collaborators Err Factory Handle) (e : Err)
    (h1 : ethers.getContractFactory "LendingPlatform" = .error e) :
    (∀ ev ∈ run ethers, ev.kind ≠ some .deploy ∧ ev.kind ≠ some .waitForDeployment ∧
      ev.kind ≠ some .getAddress) ∧
    calls (run ethers) = [.getContractFactory "LendingPlatform" (.error e)] ∧
    exitCodes (run ethers) = [1] := by
  rw [run_getContractFactory_error ethers e h1]
  refine ⟨?_, rfl, rfl⟩
  intro ev hev
  simp only [List.mem_cons, List.mem_singleton, List.not_mem_nil, or_false] at hev
  rcases hev with rfl | rfl | rfl | rfl <;> simp [Event.kind]

/-- C3: when artifact resolution returns a factory and `deploy` raises, the run
contains no call of `waitForDeployment` or `getAddress`, its collaborator calls
are the resolution and the failed submission, and the exit code is 1. -/
theorem submission_failure_stops_pipeline (ethers : Collaborators Err Factory Handle)
    (f : Factory) (e : Err)
    (h1 : ethers.getContractFactory "LendingPlatform" = .ok f)
    (h2 : ethers.deploy f [] = .error e) :
    (∀ ev ∈ run ethers, ev.kind ≠ some .waitForDeployment ∧ ev.kind ≠ some .getAddress) ∧
    calls (run ethers) = [.getContractFactory "LendingPlatform" (.ok f),
      .deploy f [] (.error e)] ∧
    exitCodes (run ethers) = [1] := by
  rw [run_deploy_error ethers f e h1 h2]
  refine ⟨?_, rfl, rfl⟩
  intro ev hev
  simp only [List.mem_cons, List.mem_singleton, List.not_mem_nil, or_false] at hev
  rcases hev with rfl | rfl | rfl | rfl | rfl <;> simp [Event.kind]

/-- C4: when `waitForDeployment` is reached and raises (whatever the error, a
timeout included), the run contains no call of `getAddress`, no address was
obtained, standard output has no address line, and the exit code is 1. -/
theorem confirmation_failure_reports_no_address (ethers : Collaborators Err Factory Handle)
    (f : Factory) (h : Handle) (e : Err)
    (h1 : ethers.getContractFactory "LendingPlatform" = .ok f)
    (h2 : ethers.deploy f [] = .ok h)
    (h3 : ethers.waitForDeployment h = .error e) :
    (∀ ev ∈ run ethers, ev.kind ≠ some .getAddress) ∧
    addresses (run ethers) = [] ∧
    (∀ line ∈ stdout (run ethers), isAddressLine line = false) ∧
    exitCodes (run ethers) = [1] := by
  rw [run_waitForDeployment_error ethers f h e h1 h2 h3]
  refine ⟨?_, rfl, ?_, rfl⟩
  · intro ev hev
    simp only [List.mem_cons, List.mem_singleton, List.not_mem_nil, or_false] at hev
    rcases hev with rfl | rfl | rfl | rfl | rfl | rfl <;> simp [Event.kind]
  · intro line hline
    have hout : stdout ([.log intentLine, .getContractFactory "LendingPlatform" (.ok f),
        .deploy f [] (.ok h), .waitForDeployment h (.error e), .error e, .exit 1] :
        Trace Err Factory Handle) = [intentLine] := rfl
    rw [hout, List.mem_singleton] at hline
    rw [hline]
    exact isAddressLine_intentLine

/-! ## The successful run -/

/-- The template literal of the address line keeps the address apart: two
address lines are equal only if their addresses are. -/
theorem addressLine_injective (a b : String) (hab : addressLine a = addressLine b) : a = b := by
  unfold addressLine at hab
  have hdata := congrArg String.data hab
  rw [String.data_append, String.data_append] at hdata
  exact String.ext (List.append_cancel_left hdata)

/-- C5: when all four steps return without error, `getAddress` returning `a`,
and the address accessor keeps its contract, the run obtains exactly one
address, which is `a` and is non-empty; standard output has exactly one address
line, which prints `a` and so is not the bare text of the template literal; and
the exit code is 0. -/
theorem successful_run_reports_returned_address (ethers : Collaborators Err Factory Handle)
    (hacc : ReturnsAddress ethers) (a : String) (hs : AllReturn ethers a) :
    addresses (run ethers) = [a] ∧
    (∀ b ∈ addresses (run ethers), b ≠ "") ∧
    (stdout (run ethers)).filter isAddressLine = [addressLine a] ∧
    (∀ line ∈ (stdout (run ethers)).filter isAddressLine, line ≠ addressLine "") ∧
    exitCodes (run ethers) = [0] := by
  have ha : a ≠ "" := by
    obtain ⟨f, h, _, _, _, h4⟩ := hs
    exact hacc h a h4
  obtain ⟨f, h, hrun⟩ := run_of_allReturn ethers a hs
  rw [hrun]
  have hout : stdout ([.log intentLine, .getContractFactory "LendingPlatform" (.ok f),
      .deploy f [] (.ok h), .waitForDeployment h (.ok ()), .getAddress h (.ok a),
      .log (addressLine a), .log completionLine, .exit 0] : Trace Err Factory Handle)
      = [intentLine, addressLine a, completionLine] := rfl
  have hadr : addresses ([.log intentLine, .getContractFactory "LendingPlatform" (.ok f),
      .deploy f [] (.ok h), .waitForDeployment h (.ok ()), .getAddress h (.ok a),
      .log (addressLine a), .log completionLine, .exit 0] : Trace Err Factory Handle)
      = [a] := rfl
  have hlines : ([intentLine, addressLine a, completionLine].filter isAddressLine)
      = [addressLine a] := by
    simp [List.filter, isAddressLine_intentLine, isAddressLine_addressLine,
      isAddressLine_completionLine]
  refine ⟨hadr, ?_, ?_, ?_, rfl⟩
  · intro b hb
    rw [hadr, List.mem_singleton] at hb
    rw [hb]
    exact ha
  · rw [hout]
    exact hlines
  · intro line hline
    rw [hout, hlines, List.mem_singleton] at hline
    rw [hline]
    exact fun heq => ha (addressLine_injective a "" heq)

/-! ## Standard output -/

/-- Standard output of a run in which some step raises. -/
theorem stdout_of_raises (ethers : Collaborators Err Factory Handle) (e : Err)
    (hr : Raises ethers e) : stdout (run ethers) = [intentLine] := by
  rcases run_of_raises ethers e hr with hrun | ⟨f, hrun⟩ | ⟨f, h, hrun⟩ | ⟨f, h, hrun⟩ <;>
    (rw [hrun]; rfl)

/-- A run that exits with code 1 is one in which some step raised. -/
theorem raises_of_exit_one (ethers : Collaborators Err Factory Handle)
    (hfail : exitCodes (run ethers) = [1]) : ∃ e, Raises ethers e := by
  rcases allReturn_or_raises ethers with ⟨a, hs⟩ | hr
  · rw [exitCodes_of_allReturn ethers a hs] at hfail
    cases hfail
  · exact hr

/-- C6: on a successful run standard output is exactly the intent line, the
address line and the completion line, in this order; in a run that ends in
failure (exit code 1) no line of standard output is an address line or the
completion line. -/
theorem log_lines_in_order (ethers : Collaborators Err Factory Handle) :
    (∀ a, AllReturn ethers a →
      stdout (run ethers) = [intentLine, addressLine a, completionLine]) ∧
    (exitCodes (run ethers) = [1] →
      ∀ line ∈ stdout (run ethers), isAddressLine line = false ∧ line ≠ completionLine) := by
  constructor
  · intro a hs
    obtain ⟨f, h, hrun⟩ := run_of_allReturn ethers a hs
    rw [hrun]
    rfl
  · intro hfail line hline
    obtain ⟨e, hr⟩ := raises_of_exit_one ethers hfail
    rw [stdout_of_raises ethers e hr, List.mem_singleton] at hline
    rw [hline]
    exact ⟨isAddressLine_intentLine, by decide⟩

/-- C10: in a run in which some step raises, whichever of the four it is,
standard output is exactly the intent line; and in every run the intent line is
the first event, written before `getContractFactory` is called. -/
theorem failed_run_prints_intent_only (ethers : Collaborators Err Factory Handle) (e : Err)
    (hr : Raises ethers e) :
    stdout (run ethers) = [intentLine] ∧
    exitCodes (run ethers) = [1] ∧
    ∃ rest, run ethers = .log intentLine ::
      .getContractFactory "LendingPlatform" (ethers.getContractFactory "LendingPlatform") ::
      rest := by
  refine ⟨stdout_of_raises ethers e hr, exitCodes_of_raises ethers e hr, ?_⟩
  rcases run_cases ethers with ⟨e, h1, hrun⟩ | ⟨f, e, h1, h2, hrun⟩ |
    ⟨f, h, e, h1, h2, h3, hrun⟩ | ⟨f, h, e, h1, h2, h3, h4, hrun⟩ |
    ⟨f, h, a, h1, h2, h3, h4, hrun⟩ <;>
    (rw [hrun, h1]; exact ⟨_, rfl⟩)

/-! ## Standard error -/

/-- C8: when the first step to raise raises `e`, standard error receives
exactly `[e]`: the trace ends with the call that raised `e`, the write of that
same `e` to standard error and then `process.exit(1)`, with no earlier write to
standard error and no earlier exit; on a successful run nothing is written to
standard error. -/
theorem error_written_unmodified (ethers : Collaborators Err Factory Handle) :
    (∀ e, Raises ethers e →
      stderr (run ethers) = [e] ∧ exitCodes (run ethers) = [1] ∧
      ∃ pre call, run ethers = pre ++ [call, .error e, .exit 1] ∧
        call.raised = some e ∧ stderr pre = [] ∧ exitCodes pre = []) ∧
    (∀ a, AllReturn ethers a → stderr (run ethers) = [] ∧ exitCodes (run ethers) = [0]) := by
  constructor
  · intro e hr
    rcases run_of_raises ethers e hr with hrun | ⟨f, hrun⟩ | ⟨f, h, hrun⟩ | ⟨f, h, hrun⟩
    · rw [hrun]
      exact ⟨rfl, rfl, [.log intentLine], _, rfl, rfl, rfl, rfl⟩
    · rw [hrun]
      exact ⟨rfl, rfl, [.log intentLine, .getContractFactory "LendingPlatform" (.ok f)], _,
        rfl, rfl, rfl, rfl⟩
    · rw [hrun]
      exact ⟨rfl, rfl, [.log intentLine, .getContractFactory "LendingPlatform" (.ok f),
        .deploy f [] (.ok h)], _, rfl, rfl, rfl, rfl⟩
    · rw [hrun]
      exact ⟨rfl, rfl, [.log intentLine, .getContractFactory "LendingPlatform" (.ok f),
        .deploy f [] (.ok h), .waitForDeployment h (.ok ())], _, rfl, rfl, rfl, rfl⟩
  · intro a hs
    obtain ⟨f, h, hrun⟩ := run_of_allReturn ethers a hs
    rw [hrun]
    exact ⟨rfl, rfl⟩

/-! ## Ordering of the trace -/

/-- C7: in the trace of every run, a `getAddress` call on a handle comes after
a `waitForDeployment` call on the same handle that returned without error, and
an address line on standard output comes after such a confirmation and after
the `getAddress` call on the confirmed handle that returned the printed
address. -/
theorem address_only_after_confirmation (ethers : Collaborators Err Factory Handle) (i : Nat) :
    (∀ h r, (run ethers)[i]? = some (.getAddress h r) →
      .waitForDeployment h (.ok ()) ∈ (run ethers).take i) ∧
    (∀ line, (run ethers)[i]? = some (.log line) → isAddressLine line = true →
      ∃ h a, line = addressLine a ∧
        .waitForDeployment h (.ok ()) ∈ (run ethers).take i ∧
        .getAddress h (.ok a) ∈ (run ethers).take i) := by
  rcases run_cases ethers with ⟨e, h1, hrun⟩ | ⟨f, e, h1, h2, hrun⟩ |
    ⟨f, h, e, h1, h2, h3, hrun⟩ | ⟨f, h, e, h1, h2, h3, h4, hrun⟩ |
    ⟨f, h, a, h1, h2, h3, h4, hrun⟩ <;> rw [hrun] <;> constructor
  · intro h' r hget
    have hmem := List.getElem?_mem hget
    simp at hmem
  · intro line hget hline
    have hmem := List.getElem?_mem hget
    simp at hmem
    rw [hmem, isAddressLine_intentLine] at hline
    cases hline
  · intro h' r hget
    have hmem := List.getElem?_mem hget
    simp at hmem
  · intro line hget hline
    have hmem := List.getElem?_mem hget
    simp at hmem
    rw [hmem, isAddressLine_intentLine] at hline
    cases hline
  · intro h' r hget
    have hmem := List.getElem?_mem hget
    simp at hmem
  · intro line hget hline
    have hmem := List.getElem?_mem hget
    simp at hmem
    rw [hmem, isAddressLine_intentLine] at hline
    cases hline
  · intro h' r hget
    rcases i with _ | _ | _ | _ | _ | _ | _ | i <;> simp at hget
    obtain ⟨rfl, _⟩ := hget
    simp
  · intro line hget hline
    have hmem := List.getElem?_mem hget
    simp at hmem
    rw [hmem, isAddressLine_intentLine] at hline
    cases hline
  · intro h' r hget
    rcases i with _ | _ | _ | _ | _ | _ | _ | _ | i <;> simp at hget
    obtain ⟨rfl, _⟩ := hget
    simp
  · intro line hget hline
    rcases i with _ | _ | _ | _ | _ | _ | _ | _ | i <;> simp at hget
    · rw [← hget, isAddressLine_intentLine] at hline
      cases hline
    · exact ⟨h, a, hget.symm, by simp, by simp⟩
    · rw [← hget, isAddressLine_completionLine] at hline
      cases hline

/-! ## The sequence of collaborator calls -/

/-- C9, as amended: the steps called in a run are a prefix of
`getContractFactory`, `deploy`, `waitForDeployment`, `getAddress`; the calls are
`getContractFactory("LendingPlatform")`, then `deploy()` without arguments on
the factory returned, then `waitForDeployment()` and `getAddress()` on the
handle returned, each made when all earlier ones returned and none after a call
that raised; the run succeeds exactly when all four calls are made and all of
them return; and the run fails exactly when the sequence ends with a call that
raised, all calls before it having returned. -/
theorem calls_follow_pipeline (ethers : Collaborators Err Factory Handle) :
    ((calls (run ethers)).filterMap Event.kind <+:
      [.getContractFactory, .deploy, .waitForDeployment, .getAddress]) ∧
    ((∃ e, ethers.getContractFactory "LendingPlatform" = .error e ∧
        calls (run ethers) = [.getContractFactory "LendingPlatform" (.error e)]) ∨
      (∃ f e, ethers.getContractFactory "LendingPlatform" = .ok f ∧
        ethers.deploy f [] = .error e ∧
        calls (run ethers) = [.getContractFactory "LendingPlatform" (.ok f),
          .deploy f [] (.error e)]) ∨
      (∃ f h e, ethers.getContractFactory "LendingPlatform" = .ok f ∧
        ethers.deploy f [] = .ok h ∧ ethers.waitForDeployment h = .error e ∧
        calls (run ethers) = [.getContractFactory "LendingPlatform" (.ok f),
          .deploy f [] (.ok h), .waitForDeployment h (.error e)]) ∨
      (∃ f h e, ethers.getContractFactory "LendingPlatform" = .ok f ∧
        ethers.deploy f [] = .ok h ∧ ethers.waitForDeployment h = .ok () ∧
        ethers.getAddress h = .error e ∧
        calls (run ethers) = [.getContractFactory "LendingPlatform" (.ok f),
          .deploy f [] (.ok h), .waitForDeployment h (.ok ()), .getAddress h (.error e)]) ∨
      (∃ f h a, ethers.getContractFactory "LendingPlatform" = .ok f ∧
        ethers.deploy f [] = .ok h ∧ ethers.waitForDeployment h = .ok () ∧
        ethers.getAddress h = .ok a ∧
        calls (run ethers) = [.getContractFactory "LendingPlatform" (.ok f),
          .deploy f [] (.ok h), .waitForDeployment h (.ok ()), .getAddress h (.ok a)])) ∧
    (exitCodes (run ethers) = [0] ↔
      (calls (run ethers)).length = 4 ∧ ∀ ev ∈ calls (run ethers), ev.raised = none) ∧
    (exitCodes (run ethers) = [1] ↔
      ∃ pre last e, calls (run ethers) = pre ++ [last] ∧ last.raised = some e ∧
        ∀ ev ∈ pre, ev.raised = none) := by
  rcases run_cases ethers with ⟨e, h1, hrun⟩ | ⟨f, e, h1, h2, hrun⟩ |
    ⟨f, h, e, h1, h2, h3, hrun⟩ | ⟨f, h, e, h1, h2, h3, h4, hrun⟩ |
    ⟨f, h, a, h1, h2, h3, h4, hrun⟩
  · have hc : calls (run ethers) = [.getContractFactory "LendingPlatform" (.error e)] := by
      rw [hrun]; rfl
    have hx : exitCodes (run ethers) = [1] := by rw [hrun]; rfl
    refine ⟨?_, Or.inl ⟨e, h1, hc⟩, ?_, ?_⟩
    · rw [hc]; exact ⟨[.deploy, .waitForDeployment, .getAddress], rfl⟩
    · rw [hc, hx]; simp
    · rw [hc, hx]
      exact ⟨fun _ => ⟨[], _, e, rfl, rfl, by simp⟩, fun _ => rfl⟩
  · have hc : calls (run ethers) = [.getContractFactory "LendingPlatform" (.ok f),
        .deploy f [] (.error e)] := by
      rw [hrun]; rfl
    have hx : exitCodes (run ethers) = [1] := by rw [hrun]; rfl
    refine ⟨?_, Or.inr (Or.inl ⟨f, e, h1, h2, hc⟩), ?_, ?_⟩
    · rw [hc]; exact ⟨[.waitForDeployment, .getAddress], rfl⟩
    · rw [hc, hx]; simp
    · rw [hc, hx]
      exact ⟨fun _ => ⟨[_], _, e, rfl, rfl, by simp [Event.raised]⟩, fun _ => rfl⟩
  · have hc : calls (run ethers) = [.getContractFactory "LendingPlatform" (.ok f),
        .deploy f [] (.ok h), .waitForDeployment h (.error e)] := by
      rw [hrun]; rfl
    have hx : exitCodes (run ethers) = [1] := by rw [hrun]; rfl
    refine ⟨?_, Or.inr (Or.inr (Or.inl ⟨f, h, e, h1, h2, h3, hc⟩)), ?_, ?_⟩
    · rw [hc]; exact ⟨[.getAddress], rfl⟩
    · rw [hc, hx]; simp
    · rw [hc, hx]
      exact ⟨fun _ => ⟨[_, _], _, e, rfl, rfl, by simp [Event.raised]⟩, fun _ => rfl⟩
  · have hc : calls (run ethers) = [.getContractFactory "LendingPlatform" (.ok f),
        .deploy f [] (.ok h), .waitForDeployment h (.ok ()), .getAddress h (.error e)] := by
      rw [hrun]; rfl
    have hx : exitCodes (run ethers) = [1] := by rw [hrun]; rfl
    refine ⟨?_, Or.inr (Or.inr (Or.inr (Or.inl ⟨f, h, e, h1, h2, h3, h4, hc⟩))), ?_, ?_⟩
    · rw [hc]; exact ⟨[], rfl⟩
    · rw [hc, hx]; simp [Event.raised]
    · rw [hc, hx]
      exact ⟨fun _ => ⟨[_, _, _], _, e, rfl, rfl, by simp [Event.raised]⟩, fun _ => rfl⟩
  · have hc : calls (run ethers) = [.getContractFactory "LendingPlatform" (.ok f),
        .deploy f [] (.ok h), .waitForDeployment h (.ok ()), .getAddress h (.ok a)] := by
      rw [hrun]; rfl
    have hx : exitCodes (run ethers) = [0] := by rw [hrun]; rfl
    refine ⟨?_, Or.inr (Or.inr (Or.inr (Or.inr ⟨f, h, a, h1, h2, h3, h4, hc⟩))), ?_, ?_⟩
    · rw [hc]; exact ⟨[], rfl⟩
    · rw [hc, hx]; simp [Event.raised]
    · rw [hc, hx]
      refine ⟨fun h01 => (by cases h01), ?_⟩
      rintro ⟨pre, last, e, heq, hraised, -⟩
      have hlast := congrArg List.getLast? heq
      simp at hlast
      rw [← hlast] at hraised
      simp [Event.raised] at hraised

/-- C9, as stated, fails: with an address accessor that raises, all four
collaborators are called, in order, and yet the run does not succeed. -/
theorem four_calls_without_success :
    (calls (run brokenAccessor)).filterMap Event.kind =
      [.getContractFactory, .deploy, .waitForDeployment, .getAddress] ∧
    exitCodes (run brokenAccessor) = [1] ∧
    ¬ ((calls (run brokenAccessor)).filterMap Event.kind =
        [.getContractFactory, .deploy, .waitForDeployment, .getAddress] ↔
      exitCodes (run brokenAccessor) = [0]) := by
  decide

/-! ## The theorems at concrete collaborators -/

/-- Witness for C2: a project whose artifact was never compiled. -/
theorem resolution_failure_stops_pipeline_witness :
    missingArtifact.getContractFactory "LendingPlatform"
      = .error "HH700: Artifact not found" ∧
    (∀ ev ∈ run missingArtifact, ev.kind ≠ some .deploy ∧
      ev.kind ≠ some .waitForDeployment ∧ ev.kind ≠ some .getAddress) ∧
    calls (run missingArtifact)
      = [.getContractFactory "LendingPlatform" (.error "HH700: Artifact not found")] ∧
    exitCodes (run missingArtifact) = [1] :=
  ⟨rfl, resolution_failure_stops_pipeline missingArtifact "HH700: Artifact not found" rfl⟩

/-- Witness for C3: an account that cannot pay for the deployment. -/
theorem submission_failure_stops_pipeline_witness :
    unfundedAccount.getContractFactory "LendingPlatform" = .ok "LendingPlatform" ∧
    unfundedAccount.deploy "LendingPlatform" [] = .error "insufficient funds" ∧
    (∀ ev ∈ run unfundedAccount, ev.kind ≠ some .waitForDeployment ∧
      ev.kind ≠ some .getAddress) ∧
    calls (run unfundedAccount) = [.getContractFactory "LendingPlatform" (.ok "LendingPlatform"),
      .deploy "LendingPlatform" [] (.error "insufficient funds")] ∧
    exitCodes (run unfundedAccount) = [1] :=
  ⟨rfl, rfl,
    submission_failure_stops_pipeline unfundedAccount "LendingPlatform" "insufficient funds"
      rfl rfl⟩

/-- Witness for C4: a transaction that is never mined. -/
theorem confirmation_failure_reports_no_address_witness :
    droppedTransaction.waitForDeployment 1 = .error "timeout" ∧
    (∀ ev ∈ run droppedTransaction, ev.kind ≠ some .getAddress) ∧
    addresses (run droppedTransaction) = [] ∧
    (∀ line ∈ stdout (run droppedTransaction), isAddressLine line = false) ∧
    exitCodes (run droppedTransaction) = [1] :=
  ⟨rfl,
    confirmation_failure_reports_no_address droppedTransaction "LendingPlatform" 1 "timeout"
      rfl rfl rfl⟩

/-- Witness for C5: a local node on which every step succeeds and the accessor
returns a forty-digit hexadecimal address. -/
theorem successful_run_reports_returned_address_witness :
    ReturnsAddress localNode ∧
    AllReturn localNode "0x5FbDB2315678afecb367f032d93F642f64180aa3" ∧
    addresses (run localNode) = ["0x5FbDB2315678afecb367f032d93F642f64180aa3"] ∧
    (∀ b ∈ addresses (run localNode), b ≠ "") ∧
    (stdout (run localNode)).filter isAddressLine
      = [addressLine "0x5FbDB2315678afecb367f032d93F642f64180aa3"] ∧
    (∀ line ∈ (stdout (run localNode)).filter isAddressLine, line ≠ addressLine "") ∧
    exitCodes (run localNode) = [0] :=
  have hacc : ReturnsAddress localNode := by
    intro h a heq
    cases heq
    decide
  have hs : AllReturn localNode "0x5FbDB2315678afecb367f032d93F642f64180aa3" :=
    ⟨"LendingPlatform", 1, rfl, rfl, rfl, rfl⟩
  ⟨hacc, hs, successful_run_reports_returned_address localNode hacc
    "0x5FbDB2315678afecb367f032d93F642f64180aa3" hs⟩

/-- Witness for C6: a successful run and a run that fails at the last step. -/
theorem log_lines_in_order_witness :
    AllReturn localNode "0x5FbDB2315678afecb367f032d93F642f64180aa3" ∧
    stdout (run localNode) = [intentLine,
      addressLine "0x5FbDB2315678afecb367f032d93F642f64180aa3", completionLine] ∧
    exitCodes (run brokenAccessor) = [1] ∧
    ∀ line ∈ stdout (run brokenAccessor), isAddressLine line = false ∧ line ≠ completionLine :=
  have hs : AllReturn localNode "0x5FbDB2315678afecb367f032d93F642f64180aa3" :=
    ⟨"LendingPlatform", 1, rfl, rfl, rfl, rfl⟩
  have hfail : exitCodes (run brokenAccessor) = [1] := by decide
  ⟨hs, (log_lines_in_order localNode).1 _ hs, hfail, (log_lines_in_order brokenAccessor).2 hfail⟩

/-- Witness for C7: the `getAddress` call and the address line of a successful run. -/
theorem address_only_after_confirmation_witness :
    (run localNode)[4]?
      = some (.getAddress 1 (.ok "0x5FbDB2315678afecb367f032d93F642f64180aa3")) ∧
    Event.waitForDeployment 1 (.ok ()) ∈ (run localNode).take 4 ∧
    (run localNode)[5]?
      = some (.log (addressLine "0x5FbDB2315678afecb367f032d93F642f64180aa3")) ∧
    ∃ h a, addressLine "0x5FbDB2315678afecb367f032d93F642f64180aa3" = addressLine a ∧
      Event.waitForDeployment h (.ok ()) ∈ (run localNode).take 5 ∧
      Event.getAddress h (.ok a) ∈ (run localNode).take 5 :=
  have h4 : (run localNode)[4]?
      = some (.getAddress 1 (.ok "0x5FbDB2315678afecb367f032d93F642f64180aa3")) := by decide
  have h5 : (run localNode)[5]?
      = some (.log (addressLine "0x5FbDB2315678afecb367f032d93F642f64180aa3")) := by decide
  ⟨h4, (address_only_after_confirmation localNode 4).1 _ _ h4, h5,
    (address_only_after_confirmation localNode 5).2 _ h5 (isAddressLine_addressLine _)⟩

/-- Witness for C8: a run that fails with a timeout and a successful run. -/
theorem error_written_unmodified_witness :
    Raises droppedTransaction "timeout" ∧
    stderr (run droppedTransaction) = ["timeout"] ∧
    exitCodes (run droppedTransaction) = [1] ∧
    (∃ pre call, run droppedTransaction = pre ++ [call, .error "timeout", .exit 1] ∧
      call.raised = some "timeout" ∧ stderr pre = [] ∧ exitCodes pre = []) ∧
    AllReturn localNode "0x5FbDB2315678afecb367f032d93F642f64180aa3" ∧
    stderr (run localNode) = [] ∧ exitCodes (run localNode) = [0] :=
  have hr : Raises droppedTransaction "timeout" :=
    Or.inr ⟨"LendingPlatform", rfl, Or.inr ⟨1, rfl, Or.inl rfl⟩⟩
  have hs : AllReturn localNode "0x5FbDB2315678afecb367f032d93F642f64180aa3" :=
    ⟨"LendingPlatform", 1, rfl, rfl, rfl, rfl⟩
  have hf := (error_written_unmodified droppedTransaction).1 "timeout" hr
  have hok := (error_written_unmodified localNode).2 _ hs
  ⟨hr, hf.1, hf.2.1, hf.2.2, hs, hok.1, hok.2⟩

/-- Witness for C9 as amended: a run that fails at the confirmation wait. -/
theorem calls_follow_pipeline_witness :
    exitCodes (run droppedTransaction) = [1] ∧
    ∃ pre last e, calls (run droppedTransaction) = pre ++ [last] ∧ last.raised = some e ∧
      ∀ ev ∈ pre, ev.raised = none :=
  have hfail : exitCodes (run droppedTransaction) = [1] := by decide
  ⟨hfail, (calls_follow_pipeline droppedTransaction).2.2.2.1 hfail⟩

/-- Witness for C10: a run that fails at artifact resolution. -/
theorem failed_run_prints_intent_only_witness :
    Raises missingArtifact "HH700: Artifact not found" ∧
    stdout (run missingArtifact) = [intentLine] ∧
    exitCodes (run missingArtifact) = [1] ∧
    ∃ rest, run missingArtifact = .log intentLine ::
      .getContractFactory "LendingPlatform"
        (missingArtifact.getContractFactory "LendingPlatform") :: rest :=
  have hr : Raises missingArtifact "HH700: Artifact not found" := Or.inl rfl
  ⟨hr, failed_run_prints_intent_only missingArtifact "HH700: Artifact not found" hr⟩

end Deploy
